import Mathlib

/-
Verification of the Guardian system monitor core.

Shallow embedding of the metrics pipeline of this repository:
  monitor.py  — network-speed derivation (get_net_speed),
  main.py     — rolling history buffers, z-score anomaly detection
                (run_zscore), threshold classification (_threshold),
                alert cooldown and bounded alert log (_log_alert),
  db.py       — persistence operations over the relational store
                (init_db, save, get_recent_stats, get_stats_summary,
                 get_baseline, log_anomaly, cleanup_old_data) and the
                transaction wrapper (_get_conn).

Python floats are embedded as exact rationals (ℚ); machine dictionaries
as association lists; `collections.deque(maxlen=n)` as a list with an
explicit eviction rule.  Where the source computes a square root
(numpy std, SQL STDDEV), the embedding carries the radicand (variance)
instead, which is zero, positive or comparable exactly when the root is,
and every comparison against a root is embedded as the equivalent
comparison of squares; this keeps every definition executable.
-/

namespace Guardian

/-- Python `collections.deque` of capacity `cap`, method `append v`: the value
is added on the right and, if the buffer would exceed `cap` elements,
elements are discarded from the left until it holds `cap` again.
This is the push used by every history buffer in main.py
(`cpu_history`, ..., `z_cpu_buf`, ..., and `alert_log` mirrored). -/
def dequePush (cap : Nat) (buf : List ℚ) (v : ℚ) : List ℚ :=
  if cap < (buf ++ [v]).length then
    (buf ++ [v]).drop ((buf ++ [v]).length - cap)
  else buf ++ [v]

theorem dequePush_subset (cap : Nat) (buf : List ℚ) (v : ℚ) :
    dequePush cap buf v ⊆ buf ++ [v] := by
  unfold dequePush
  split
  · exact List.drop_subset _ _
  · exact fun x hx => hx

theorem dequePush_length (cap : Nat) (buf : List ℚ) (v : ℚ) :
    (dequePush cap buf v).length = min (buf.length + 1) cap := by
  unfold dequePush
  simp only [List.length_append, List.length_cons, List.length_nil]
  split <;> simp <;> omega

theorem dequePush_of_lt (cap : Nat) (buf : List ℚ) (v : ℚ)
    (h : buf.length < cap) : dequePush cap buf v = buf ++ [v] := by
  unfold dequePush
  simp only [List.length_append, List.length_cons, List.length_nil]
  split <;> [omega; rfl]

theorem dequePush_of_full (cap : Nat) (buf : List ℚ) (v : ℚ)
    (hc : 0 < cap) (h : buf.length = cap) :
    dequePush cap buf v = buf.tail ++ [v] := by
  unfold dequePush
  simp only [List.length_append, List.length_cons, List.length_nil]
  have h1 : cap < buf.length + (1 + 0) := by omega
  rw [if_pos h1]
  have h2 : buf.length + (1 + 0) - cap = 1 := by omega
  rw [h2, List.drop_append_of_le_length (by omega), List.drop_one]

theorem foldl_dequePush (cap : Nat) (vs : List ℚ) :
    ∀ init : List ℚ, init.length ≤ cap →
    List.foldl (dequePush cap) init vs =
      (init ++ vs).drop (init.length + vs.length - cap) := by
  induction vs with
  | nil =>
    intro init h
    simp [Nat.sub_eq_zero_of_le h]
  | cons v tl ih =>
    intro init h
    rcases Nat.lt_or_ge init.length cap with hlt | hge
    · rw [List.foldl_cons, dequePush_of_lt cap init v hlt,
        ih (init ++ [v]) (by simp; omega)]
      simp only [List.length_append, List.length_cons, List.length_nil,
        List.append_assoc, List.singleton_append]
      congr 1
      omega
    · rcases Nat.eq_zero_or_pos cap with h0 | hc
      · -- cap = 0: the buffer is empty and stays empty after every push
        subst h0
        have hinit0 : init = [] := List.eq_nil_of_length_eq_zero (Nat.le_zero.mp h)
        subst hinit0
        rw [List.foldl_cons]
        have hp : dequePush 0 [] v = [] := by simp [dequePush]
        rw [hp, ih [] (by simp)]
        simp
      · have heq : init.length = cap := le_antisymm h hge
        rw [List.foldl_cons, dequePush_of_full cap init v hc heq,
          ih (init.tail ++ [v]) (by simp; omega)]
        have h4 : (init ++ v :: tl).drop 1 = init.drop 1 ++ v :: tl :=
          List.drop_append_of_le_length (by omega)
        have hL : init.tail ++ [v] ++ tl = (init ++ v :: tl).drop 1 := by
          rw [h4]
          simp [List.drop_one]
        rw [hL, List.drop_drop]
        congr 1
        simp only [List.length_append, List.length_cons, List.length_nil,
          List.length_tail]
        omega

/-- C5: for every metric series of capacity `C` and every sequence of
pushed values longer than `C`, the series afterwards contains exactly the
`C` most recently pushed values in insertion order, oldest first, and a
push onto a full buffer evicts exactly the oldest element. -/
theorem series_ring_buffer (cap : Nat) (init vs buf : List ℚ) (v : ℚ)
    (hinit : init.length ≤ cap) (hcap : 0 < cap) (hlen : cap < vs.length)
    (hbuf : buf.length = cap) :
    List.foldl (dequePush cap) init vs = vs.drop (vs.length - cap)
    ∧ (List.foldl (dequePush cap) init vs).length = cap
    ∧ dequePush cap buf v = buf.tail ++ [v] := by
  have hm := foldl_dequePush cap vs init hinit
  have hidx : init.length + vs.length - cap = init.length + (vs.length - cap) := by
    omega
  rw [hidx] at hm
  have hdrop : (init ++ vs).drop (init.length + (vs.length - cap)) =
      vs.drop (vs.length - cap) := by
    rw [List.drop_append]
  rw [hdrop] at hm
  refine ⟨hm, ?_, dequePush_of_full cap buf v hcap hbuf⟩
  rw [hm, List.length_drop]
  omega

/-- Witness for C5 at capacity 3: pushing `[1,2,3,4]` onto an initially
zero-filled buffer leaves exactly `[2,3,4]`, and one more push onto the
full buffer `[1,2,3]` evicts exactly the oldest element. -/
theorem series_ring_buffer_witness :
    List.foldl (dequePush 3) [0, 0, 0] [1, 2, 3, 4] = ([1, 2, 3, 4] : List ℚ).drop 1
    ∧ (List.foldl (dequePush 3) [0, 0, 0] [1, 2, 3, 4]).length = 3
    ∧ dequePush 3 [1, 2, 3] 9 = ([1, 2, 3] : List ℚ).tail ++ [9] := by
  have h := series_ring_buffer 3 [0, 0, 0] [1, 2, 3, 4] [1, 2, 3] 9
    (by decide) (by decide) (by decide) (by decide)
  simpa using h

/-- One warning/critical pair from main.py `THRESHOLDS`. -/
structure Band where
  warning : ℚ
  critical : ℚ
deriving DecidableEq

/-- main.py `THRESHOLDS`: per-metric warning/critical percentages. -/
def THRESHOLDS : List (String × Band) :=
  [("cpu", ⟨60, 85⟩), ("ram", ⟨70, 85⟩), ("disk", ⟨70, 90⟩)]

/-- main.py `THRESHOLDS.get(metric, \x7b"warning": 70, "critical": 85\x7d)`:
lookup with the documented default pair for unknown metric kinds. -/
def thresholdsFor (metric : String) : Band :=
  (((THRESHOLDS.find? (fun p => p.1 == metric)).map (fun p => p.2)).getD ⟨70, 85⟩)

/-- main.py `_threshold`: classify a value against its metric band; returns
the (color, status, badge-style) triple exactly as the source does. -/
def thresholdOf (value : ℚ) (metric : String) : String × String × String :=
  let t := thresholdsFor metric
  if t.critical ≤ value then ("red", "CRITICAL", "bold red")
  else if t.warning ≤ value then ("yellow", "WARNING", "bold yellow")
  else ("green", "NORMAL", "bold green")

theorem thresholdsFor_warning_le_critical (metric : String) :
    (thresholdsFor metric).warning ≤ (thresholdsFor metric).critical := by
  unfold thresholdsFor THRESHOLDS
  simp only [List.find?]
  rcases h1 : ("cpu" == metric) <;> rcases h2 : ("ram" == metric) <;>
    rcases h3 : ("disk" == metric) <;> simp [h1, h2, h3] <;> norm_num

/-- C10: threshold classification is inclusive at both band boundaries:
a value exactly at the critical threshold is CRITICAL, a value exactly at
the warning threshold (below critical) is WARNING, and a value below the
warning threshold is NORMAL, for every metric kind (known or defaulted). -/
theorem threshold_inclusive (metric : String) (v : ℚ) :
    (v = (thresholdsFor metric).critical →
      (thresholdOf v metric).2.1 = "CRITICAL")
    ∧ (v = (thresholdsFor metric).warning → v < (thresholdsFor metric).critical →
      (thresholdOf v metric).2.1 = "WARNING")
    ∧ (v < (thresholdsFor metric).warning →
      (thresholdOf v metric).2.1 = "NORMAL") := by
  have hwc := thresholdsFor_warning_le_critical metric
  unfold thresholdOf
  refine ⟨?_, ?_, ?_⟩
  · intro hv
    rw [if_pos (le_of_eq hv.symm)]
  · intro hv hlt
    rw [if_neg (not_le.mpr hlt), if_pos (le_of_eq hv.symm)]
  · intro hv
    rw [if_neg (by exact not_le.mpr (lt_of_lt_of_le hv hwc)),
      if_neg (not_le.mpr hv)]

/-- Witness for C10 on the cpu band (warning 60, critical 85). -/
theorem threshold_inclusive_witness :
    ((85 : ℚ) = (thresholdsFor "cpu").critical →
      (thresholdOf 85 "cpu").2.1 = "CRITICAL")
    ∧ ((85 : ℚ) = (thresholdsFor "cpu").warning →
        (85 : ℚ) < (thresholdsFor "cpu").critical →
      (thresholdOf 85 "cpu").2.1 = "WARNING")
    ∧ ((85 : ℚ) < (thresholdsFor "cpu").warning →
      (thresholdOf 85 "cpu").2.1 = "NORMAL") :=
  threshold_inclusive "cpu" 85

/-- Cumulative network byte counters as read from the OS
(psutil `net_io_counters`). -/
structure NetCounters where
  bytes_sent : ℚ
  bytes_recv : ℚ
deriving DecidableEq

/-- The cross-call state of monitor.py `get_net_speed`:
`(_last_net, _last_net_time)`. -/
structure NetState where
  last : NetCounters
  lastTime : ℚ
deriving DecidableEq

/-- monitor.py `get_net_speed`: derives (sent KB/s, recv KB/s) from the
counter deltas since the previous call and updates the cross-call state.
The Python source computes `elapsed = now - _last_net_time or 1.0`: the
`or` substitutes 1.0 only when the difference is exactly 0.0 (falsy); a
negative difference is truthy and is used unchanged.  Each speed is then
clamped with `max(0, ...)`. -/
def getNetSpeed (st : NetState) (now : ℚ) (current : NetCounters) :
    (ℚ × ℚ) × NetState :=
  let elapsed := if now - st.lastTime = 0 then 1 else now - st.lastTime
  let sent_speed := (current.bytes_sent - st.last.bytes_sent) / elapsed / 1024
  let recv_speed := (current.bytes_recv - st.last.bytes_recv) / elapsed / 1024
  ((max 0 sent_speed, max 0 recv_speed), ⟨current, now⟩)

/-- Modelled from the claim text of the spec (not from the source): the
network-speed computation with `elapsed` guarded against zero AND negative
values by substituting 1.0 before division. -/
def claimNetSpeed (st : NetState) (now : ℚ) (current : NetCounters) :
    ℚ × ℚ :=
  let e0 := now - st.lastTime
  let elapsed := if e0 ≤ 0 then 1 else e0
  (max 0 ((current.bytes_sent - st.last.bytes_sent) / elapsed / 1024),
   max 0 ((current.bytes_recv - st.last.bytes_recv) / elapsed / 1024))

/-- Counterexample to C1: with a clock step backwards (elapsed = -1 second)
and 1024 bytes newly sent, the claimed guard (substitute 1.0 for a negative
elapsed) predicts an upload speed of 1 KB/s, but the source divides by the
negative elapsed as-is and the clamp reports 0 KB/s. -/
theorem net_speed_negative_elapsed_counterexample :
    (getNetSpeed ⟨⟨0, 0⟩, 1⟩ 0 ⟨1024, 0⟩).1.1 = 0
    ∧ (claimNetSpeed ⟨⟨0, 0⟩, 1⟩ 0 ⟨1024, 0⟩).1 = 1
    ∧ (getNetSpeed ⟨⟨0, 0⟩, 1⟩ 0 ⟨1024, 0⟩).1.1
        ≠ (claimNetSpeed ⟨⟨0, 0⟩, 1⟩ 0 ⟨1024, 0⟩).1 := by
  refine ⟨?_, ?_, ?_⟩ <;> norm_num [getNetSpeed, claimNetSpeed]

/-- C1 amended: the elapsed time is guarded only against the exact value
zero by substituting 1.0 (a negative elapsed is divided by as-is, with the
final clamp still preventing a negative report).  For a positive elapsed,
each speed equals max(0, (current - last) / elapsed / 1024) in KB/s, is
never negative, and a counter decrease (reset) yields speed 0; the
concrete reading pair (sent 1000 → 2024, recv 2000 → 2000 over 1 s)
yields (1, 0) KB/s. -/
theorem net_speed_amended (st : NetState) (now : ℚ) (current : NetCounters)
    (hpos : 0 < now - st.lastTime) :
    (getNetSpeed st now current).1.1 =
      max 0 ((current.bytes_sent - st.last.bytes_sent) / (now - st.lastTime) / 1024)
    ∧ (getNetSpeed st now current).1.2 =
      max 0 ((current.bytes_recv - st.last.bytes_recv) / (now - st.lastTime) / 1024)
    ∧ 0 ≤ (getNetSpeed st now current).1.1
    ∧ 0 ≤ (getNetSpeed st now current).1.2
    ∧ (current.bytes_sent ≤ st.last.bytes_sent →
        (getNetSpeed st now current).1.1 = 0)
    ∧ (getNetSpeed ⟨⟨1000, 2000⟩, 0⟩ 1 ⟨2024, 2000⟩).1 = (1, 0) := by
  have hne : now - st.lastTime ≠ 0 := ne_of_gt hpos
  refine ⟨?_, ?_, ?_, ?_, ?_, ?_⟩
  · simp [getNetSpeed, hne]
  · simp [getNetSpeed, hne]
  · simp [getNetSpeed]
  · simp [getNetSpeed]
  · intro hdec
    simp only [getNetSpeed, if_neg hne]
    have hnum : current.bytes_sent - st.last.bytes_sent ≤ 0 := by linarith
    have hdiv : (current.bytes_sent - st.last.bytes_sent) / (now - st.lastTime) ≤ 0 :=
      div_nonpos_of_nonpos_of_nonneg hnum (le_of_lt hpos)
    have : (current.bytes_sent - st.last.bytes_sent) / (now - st.lastTime) / 1024 ≤ 0 :=
      div_nonpos_of_nonpos_of_nonneg hdiv (by norm_num)
    exact max_eq_left this
  · norm_num [getNetSpeed]

/-- Witness for C1 amended: a counter reset (sent 1024 → 0) over a positive
one-second elapsed reports 0 KB/s upload, and the spec's concrete reading
pair reports (1, 0) KB/s. -/
theorem net_speed_amended_witness :
    (getNetSpeed ⟨⟨1024, 0⟩, 0⟩ 1 ⟨0, 0⟩).1.1 =
      max 0 (((0 : ℚ) - 1024) / (1 - 0) / 1024)
    ∧ (getNetSpeed ⟨⟨1024, 0⟩, 0⟩ 1 ⟨0, 0⟩).1.2 =
      max 0 (((0 : ℚ) - 0) / (1 - 0) / 1024)
    ∧ 0 ≤ (getNetSpeed ⟨⟨1024, 0⟩, 0⟩ 1 ⟨0, 0⟩).1.1
    ∧ 0 ≤ (getNetSpeed ⟨⟨1024, 0⟩, 0⟩ 1 ⟨0, 0⟩).1.2
    ∧ ((0 : ℚ) ≤ 1024 → (getNetSpeed ⟨⟨1024, 0⟩, 0⟩ 1 ⟨0, 0⟩).1.1 = 0)
    ∧ (getNetSpeed ⟨⟨1000, 2000⟩, 0⟩ 1 ⟨2024, 2000⟩).1 = (1, 0) :=
  net_speed_amended ⟨⟨1024, 0⟩, 0⟩ 1 ⟨0, 0⟩ (by norm_num)

/-- Arithmetic mean, numpy `arr.mean()`. -/
def listMean (l : List ℚ) : ℚ := l.sum / l.length

/-- Population variance, the radicand of numpy `arr.std()` (which uses
`ddof = 0`).  The source compares `std < 0.01` and `abs z > 3.0`; both are
embedded as the equivalent comparisons of squares against this value. -/
def popVar (l : List ℚ) : ℚ :=
  ((l.map (fun x => (x - listMean l) ^ 2)).sum) / l.length

/-- One entry of main.py `run_zscore`'s per-metric `results` dict.
`zSq` is the square of the reported z-score (the reported z is zero
exactly when `zSq` is zero); `flat` records that the `std < 0.01` branch
was taken, in which the source reports `z = 0.0`, `flagged = False` and
performs no division by the standard deviation. -/
structure ZEntry where
  mean : ℚ
  variance : ℚ
  val : ℚ
  zSq : ℚ
  flagged : Bool
  flat : Bool
deriving DecidableEq

/-- Body of the per-metric loop of main.py `run_zscore`: the flat-signal
guard `std < 0.01` (embedded as `variance < 0.01 ^ 2`), else
`z = (val - mean) / std` with `flagged = abs z > 3.0` (embedded as
`z ^ 2 > 3.0 ^ 2`). -/
def checkMetric (val : ℚ) (buf : List ℚ) : ZEntry :=
  if popVar buf < 1 / 10000 then
    ⟨listMean buf, popVar buf, val, 0, false, true⟩
  else
    ⟨listMean buf, popVar buf, val, (val - listMean buf) ^ 2 / popVar buf,
      decide (9 < (val - listMean buf) ^ 2 / popVar buf), false⟩

/-- The four per-tick inputs of main.py `run_zscore`. -/
structure ZInput where
  cpu : ℚ
  ram : ℚ
  up : ℚ
  down : ℚ
deriving DecidableEq

/-- The four dedicated z-score buffers of main.py
(`z_cpu_buf`, `z_ram_buf`, `z_up_buf`, `z_down_buf`). -/
structure ZState where
  cpu : List ℚ
  ram : List ℚ
  up : List ℚ
  down : List ℚ
deriving DecidableEq

/-- The per-metric `results` dict of `run_zscore` when detection is
active: one entry per tracked metric. -/
structure ZResults where
  cpu : ZEntry
  ram : ZEntry
  up : ZEntry
  down : ZEntry
deriving DecidableEq

/-- The z-score buffers at program start: all empty. -/
def zInit : ZState := ⟨[], [], [], []⟩

/-- main.py `Z_WINDOW`. -/
def Z_WINDOW : Nat := 60

/-- main.py `Z_MIN_SAMPLES`. -/
def Z_MIN_SAMPLES : Nat := 30

/-- The four appends at the top of `run_zscore`. -/
def zpush (st : ZState) (v : ZInput) : ZState :=
  ⟨dequePush Z_WINDOW st.cpu v.cpu, dequePush Z_WINDOW st.ram v.ram,
   dequePush Z_WINDOW st.up v.up, dequePush Z_WINDOW st.down v.down⟩

/-- The active branch of `run_zscore`: the four per-metric checks and the
anomaly list (one label per flagged metric, in check order; the source
formats each label into a display message, elided here as presentation). -/
def zstepResults (st2 : ZState) (v : ZInput) : Option ZResults × List String :=
  (some ⟨checkMetric v.cpu st2.cpu, checkMetric v.ram st2.ram,
         checkMetric v.up st2.up, checkMetric v.down st2.down⟩,
   (if (checkMetric v.cpu st2.cpu).flagged then ["CPU"] else []) ++
     (if (checkMetric v.ram st2.ram).flagged then ["RAM"] else []) ++
     (if (checkMetric v.up st2.up).flagged then ["Net Upload"] else []) ++
     (if (checkMetric v.down st2.down).flagged then ["Net Download"] else []))

/-- main.py `run_zscore`: append the new values, then gate globally on the
first-tracked metric's buffer length (`len(z_cpu_buf) < Z_MIN_SAMPLES`
returns no result for any metric); otherwise score all four metrics. -/
def zstep (st : ZState) (v : ZInput) : ZState × Option ZResults × List String :=
  if (zpush st v).cpu.length < Z_MIN_SAMPLES then (zpush st v, none, [])
  else (zpush st v, zstepResults (zpush st v) v)

/-- Per-tick outputs of `run_zscore` over a sequence of ticks. -/
def ztrace : ZState → List ZInput → List (Option ZResults × List String)
  | _, [] => []
  | st, v :: vs => (zstep st v).2 :: ztrace (zstep st v).1 vs

theorem zstep_fst (st : ZState) (v : ZInput) : (zstep st v).1 = zpush st v := by
  unfold zstep
  split <;> rfl

theorem zstep_snd_gated (st : ZState) (v : ZInput)
    (h : (zpush st v).cpu.length < Z_MIN_SAMPLES) :
    (zstep st v).2 = (none, []) := by
  unfold zstep
  rw [if_pos h]

theorem zstep_snd_active (st : ZState) (v : ZInput)
    (h : ¬ (zpush st v).cpu.length < Z_MIN_SAMPLES) :
    (zstep st v).2 = zstepResults (zpush st v) v := by
  unfold zstep
  rw [if_neg h]

theorem zpush_cpu_length (st : ZState) (v : ZInput) :
    (zpush st v).cpu.length = min (st.cpu.length + 1) Z_WINDOW :=
  dequePush_length Z_WINDOW st.cpu v.cpu

theorem ztrace_cons (st : ZState) (v : ZInput) (vs : List ZInput) :
    ztrace st (v :: vs) = (zstep st v).2 :: ztrace (zstep st v).1 vs := rfl

theorem ztrace_getD (ticks : List ZInput) :
    ∀ (st : ZState) (k : Nat), k < ticks.length →
    (((ztrace st ticks).getD k (none, [])).1.isSome =
        decide (Z_MIN_SAMPLES ≤ min (st.cpu.length + (k + 1)) Z_WINDOW))
    ∧ (min (st.cpu.length + (k + 1)) Z_WINDOW < Z_MIN_SAMPLES →
        (ztrace st ticks).getD k (none, []) = (none, [])) := by
  induction ticks with
  | nil =>
    intro st k hk
    simp at hk
  | cons v vs ih =>
    intro st k hk
    cases k with
    | zero =>
      have hlen := zpush_cpu_length st v
      rw [ztrace_cons, List.getD_cons_zero]
      by_cases h : (zpush st v).cpu.length < Z_MIN_SAMPLES
      · rw [zstep_snd_gated st v h]
        rw [hlen] at h
        constructor
        · simp only [Option.isSome_none]
          symm
          rw [decide_eq_false_iff_not]
          omega
        · intro _
          rfl
      · rw [zstep_snd_active st v h]
        rw [hlen] at h
        constructor
        · simp only [zstepResults, Option.isSome_some]
          symm
          rw [decide_eq_true_eq]
          omega
        · intro hlt
          omega
    | succ k =>
      have hlen := zpush_cpu_length st v
      have hk2 : k < vs.length := by simpa using hk
      rw [ztrace_cons, List.getD_cons_succ, zstep_fst]
      have hih := ih (zpush st v) k hk2
      rw [hlen] at hih
      have hidx : min (min (st.cpu.length + 1) Z_WINDOW + (k + 1)) Z_WINDOW
          = min (st.cpu.length + (k + 1 + 1)) Z_WINDOW := by
        omega
      rw [hidx] at hih
      exact hih

/-- C3: over every sequence of ticks starting from the program-start state,
anomaly detection returns no result and flags nothing at every tick where
the statistics window still has fewer than `Z_MIN_SAMPLES = 30` observed
values, and a result is present exactly from the tick where the count
reaches 30 onward (the gate reads the first-tracked metric's buffer). -/
theorem zscore_warmup (ticks : List ZInput) (k : Nat) (hk : k < ticks.length) :
    (((ztrace zInit ticks).getD k (none, [])).1.isSome = true
      ↔ Z_MIN_SAMPLES ≤ k + 1)
    ∧ (k + 1 < Z_MIN_SAMPLES →
        (ztrace zInit ticks).getD k (none, []) = (none, [])) := by
  obtain ⟨h1, h2⟩ := ztrace_getD ticks zInit k hk
  have hz : zInit.cpu.length = 0 := rfl
  rw [hz] at h1 h2
  constructor
  · rw [h1, decide_eq_true_eq]
    simp only [Z_MIN_SAMPLES, Z_WINDOW]
    omega
  · intro hlt
    apply h2
    simp only [Z_MIN_SAMPLES, Z_WINDOW] at hlt ⊢
    omega

/-- Witness for C3: with 31 identical ticks, tick 29 (0-indexed 28, the
29th sample) is still gated while tick 30 (0-indexed 29) produces a
result. -/
theorem zscore_warmup_witness :
    ((((ztrace zInit (List.replicate 31 ⟨0, 0, 0, 0⟩)).getD 29 (none, [])).1.isSome = true
        ↔ Z_MIN_SAMPLES ≤ 29 + 1)
      ∧ (29 + 1 < Z_MIN_SAMPLES →
          (ztrace zInit (List.replicate 31 ⟨0, 0, 0, 0⟩)).getD 29 (none, []) = (none, [])))
    ∧ ((((ztrace zInit (List.replicate 31 ⟨0, 0, 0, 0⟩)).getD 28 (none, [])).1.isSome = true
        ↔ Z_MIN_SAMPLES ≤ 28 + 1)
      ∧ (28 + 1 < Z_MIN_SAMPLES →
          (ztrace zInit (List.replicate 31 ⟨0, 0, 0, 0⟩)).getD 28 (none, []) = (none, []))) :=
  ⟨zscore_warmup (List.replicate 31 ⟨0, 0, 0, 0⟩) 29 (by simp),
   zscore_warmup (List.replicate 31 ⟨0, 0, 0, 0⟩) 28 (by simp)⟩

theorem listMean_const (c : ℚ) (l : List ℚ) (h : ∀ x ∈ l, x = c)
    (hne : l ≠ []) : listMean l = c := by
  have hrep : l = List.replicate l.length c := List.eq_replicate_of_mem h
  have hn : (l.length : ℚ) ≠ 0 := by
    have := List.length_pos.mpr hne
    exact_mod_cast Nat.pos_iff_ne_zero.mp this
  unfold listMean
  rw [hrep]
  simp only [List.sum_replicate, List.length_replicate, nsmul_eq_mul]
  exact mul_div_cancel_left₀ c hn

theorem popVar_const (c : ℚ) (l : List ℚ) (h : ∀ x ∈ l, x = c) :
    popVar l = 0 := by
  rcases eq_or_ne l [] with rfl | hne
  · simp [popVar]
  · have hm := listMean_const c l h hne
    have hmap : l.map (fun x => (x - listMean l) ^ 2)
        = List.replicate l.length 0 := by
      have : ∀ y ∈ l.map (fun x => (x - listMean l) ^ 2), y = 0 := by
        intro y hy
        obtain ⟨x, hx, hxy⟩ := List.mem_map.mp hy
        rw [← hxy, h x hx, hm]
        ring
      calc l.map (fun x => (x - listMean l) ^ 2)
          = List.replicate (l.map (fun x => (x - listMean l) ^ 2)).length 0 :=
            List.eq_replicate_of_mem this
        _ = List.replicate l.length 0 := by rw [List.length_map]
    unfold popVar
    rw [hmap]
    simp

/-- All flags of one tick's results, used to state C6 without binders in
witness statements. -/
def anyFlagged (r : ZResults) : Bool :=
  r.cpu.flagged || r.ram.flagged || r.up.flagged || r.down.flagged

theorem checkMetric_flat (val : ℚ) (buf : List ℚ)
    (hflat : popVar buf < 1 / 10000) :
    checkMetric val buf = ⟨listMean buf, popVar buf, val, 0, false, true⟩ := by
  unfold checkMetric
  rw [if_pos hflat]

theorem checkMetric_const_unflagged (val c : ℚ) (buf : List ℚ)
    (h : ∀ x ∈ buf, x = c) : (checkMetric val buf).flagged = false := by
  have h0 : popVar buf < 1 / 10000 := by
    rw [popVar_const c buf h]
    norm_num
  rw [checkMetric_flat val buf h0]

theorem zpush_const (st : ZState) (c : ℚ)
    (hcpu : ∀ x ∈ st.cpu, x = c) (hram : ∀ x ∈ st.ram, x = c)
    (hup : ∀ x ∈ st.up, x = c) (hdown : ∀ x ∈ st.down, x = c) :
    (∀ x ∈ (zpush st ⟨c, c, c, c⟩).cpu, x = c)
    ∧ (∀ x ∈ (zpush st ⟨c, c, c, c⟩).ram, x = c)
    ∧ (∀ x ∈ (zpush st ⟨c, c, c, c⟩).up, x = c)
    ∧ (∀ x ∈ (zpush st ⟨c, c, c, c⟩).down, x = c) := by
  refine ⟨?_, ?_, ?_, ?_⟩ <;>
    · intro x hx
      rcases List.mem_append.mp (dequePush_subset _ _ _ hx) with hx2 | hx2
      · first
          | exact hcpu x hx2
          | exact hram x hx2
          | exact hup x hx2
          | exact hdown x hx2
      · simpa using hx2

/-- C6: whenever the population standard deviation of a metric's window is
below 0.01 (variance below 0.01²), the reported z-score is 0 and the entry
is unflagged, the flat branch with no division having been taken; hence a
run_zscore tick on constant-valued buffers of any length flags nothing. -/
theorem zscore_flat_guard (val c : ℚ) (buf : List ℚ) (st : ZState)
    (hflat : popVar buf < 1 / 10000)
    (hcpu : ∀ x ∈ st.cpu, x = c) (hram : ∀ x ∈ st.ram, x = c)
    (hup : ∀ x ∈ st.up, x = c) (hdown : ∀ x ∈ st.down, x = c) :
    checkMetric val buf = ⟨listMean buf, popVar buf, val, 0, false, true⟩
    ∧ (zstep st ⟨c, c, c, c⟩).2.2 = []
    ∧ (((zstep st ⟨c, c, c, c⟩).2.1.map anyFlagged).getD false = false) := by
  obtain ⟨hc1, hc2, hc3, hc4⟩ := zpush_const st c hcpu hram hup hdown
  refine ⟨checkMetric_flat val buf hflat, ?_, ?_⟩
  · by_cases h : (zpush st ⟨c, c, c, c⟩).cpu.length < Z_MIN_SAMPLES
    · rw [zstep_snd_gated _ _ h]
    · rw [zstep_snd_active _ _ h]
      simp [zstepResults, checkMetric_const_unflagged _ c _ hc1,
        checkMetric_const_unflagged _ c _ hc2,
        checkMetric_const_unflagged _ c _ hc3,
        checkMetric_const_unflagged _ c _ hc4]
  · by_cases h : (zpush st ⟨c, c, c, c⟩).cpu.length < Z_MIN_SAMPLES
    · rw [zstep_snd_gated _ _ h]
      rfl
    · rw [zstep_snd_active _ _ h]
      simp [zstepResults, anyFlagged,
        checkMetric_const_unflagged _ c _ hc1,
        checkMetric_const_unflagged _ c _ hc2,
        checkMetric_const_unflagged _ c _ hc3,
        checkMetric_const_unflagged _ c _ hc4]

/-- Witness for C6: a constant buffer of thirty 50s is flat (variance 0),
and a tick on buffers holding thirty 50s each flags nothing. -/
theorem zscore_flat_guard_witness :
    checkMetric 50 (List.replicate 30 50)
      = ⟨listMean (List.replicate 30 50), popVar (List.replicate 30 50), 50, 0, false, true⟩
    ∧ (zstep ⟨List.replicate 30 50, List.replicate 30 50,
        List.replicate 30 50, List.replicate 30 50⟩ ⟨50, 50, 50, 50⟩).2.2 = []
    ∧ (((zstep ⟨List.replicate 30 50, List.replicate 30 50,
        List.replicate 30 50, List.replicate 30 50⟩ ⟨50, 50, 50, 50⟩).2.1.map
          anyFlagged).getD false = false) := by
  have hconst : ∀ x ∈ List.replicate 30 (50 : ℚ), x = 50 :=
    fun x hx => List.eq_of_mem_replicate hx
  have hflat : popVar (List.replicate 30 (50 : ℚ)) < 1 / 10000 := by
    rw [popVar_const 50 _ hconst]
    norm_num
  exact zscore_flat_guard 50 50 (List.replicate 30 50)
    ⟨List.replicate 30 50, List.replicate 30 50, List.replicate 30 50, List.replicate 30 50⟩
    hflat hconst hconst hconst hconst

/-- The alert-governor state of main.py: the `_last_alert_time` dict
(modelled as an association list whose lookup returns the most recent
binding) and the `alert_log` deque of capacity 5. -/
structure AlertState where
  lastFired : List (String × ℚ)
  log : List String
deriving DecidableEq

/-- main.py `ALERT_COOLDOWN`. -/
def ALERT_COOLDOWN : ℚ := 60

/-- Python `_last_alert_time.get(key, ...)` without the default. -/
def lookupFired (m : List (String × ℚ)) (key : String) : Option ℚ :=
  (m.find? (fun p => p.1 == key)).map (fun p => p.2)

/-- The formatted log entry of `_log_alert`:
`f"[dim]\x7bts\x7d[/dim]  \x7bmsg\x7d"`. -/
def fmtAlert (ts msg : String) : String :=
  "[dim]" ++ ts ++ "[/dim]  " ++ msg

/-- main.py `_log_alert`: suppress inside the cooldown window (reading the
dict with default 0), else record the fire time and prepend the formatted
entry to the capacity-5 alert log (`appendleft` on a full deque silently
drops the oldest, rightmost entry). -/
def logAlert (st : AlertState) (now : ℚ) (key ts msg : String) : AlertState :=
  if now - (lookupFired st.lastFired key).getD 0 < ALERT_COOLDOWN then st
  else ⟨(key, now) :: st.lastFired, (fmtAlert ts msg :: st.log).take 5⟩

/-- C4: for a key that has fired before, a call within 60 seconds of that
fire is suppressed with no state mutation; otherwise the key's fire time
becomes `now` and the formatted, timestamped entry is prepended to the
alert log, which stays bounded at 5 entries most-recent-first, the oldest
(last) entry being silently dropped when the log is full. -/
theorem alert_cooldown (st : AlertState) (now t : ℚ) (key ts msg : String)
    (hk : lookupFired st.lastFired key = some t) :
    (now - t < ALERT_COOLDOWN → logAlert st now key ts msg = st)
    ∧ (ALERT_COOLDOWN ≤ now - t →
        lookupFired (logAlert st now key ts msg).lastFired key = some now
        ∧ (logAlert st now key ts msg).log = (fmtAlert ts msg :: st.log).take 5)
    ∧ (st.log.length ≤ 5 → (logAlert st now key ts msg).log.length ≤ 5)
    ∧ (st.log.length = 5 → ALERT_COOLDOWN ≤ now - t →
        (logAlert st now key ts msg).log = fmtAlert ts msg :: st.log.take 4) := by
  have hget : (lookupFired st.lastFired key).getD 0 = t := by
    rw [hk]
    rfl
  refine ⟨?_, ?_, ?_, ?_⟩
  · intro hcool
    unfold logAlert
    rw [hget, if_pos hcool]
  · intro hfire
    unfold logAlert
    rw [hget, if_neg (not_lt.mpr hfire)]
    constructor
    · unfold lookupFired
      rw [List.find?_cons_of_pos _ (by simp)]
      rfl
    · rfl
  · intro hlen
    unfold logAlert
    rw [hget]
    split
    · exact hlen
    · simp only [List.length_take, List.length_cons]
      omega
  · intro hfull hfire
    unfold logAlert
    rw [hget, if_neg (not_lt.mpr hfire)]
    simp only [List.take_succ_cons]

/-- Witness for C4: with key "cpu" last fired at t = 0 and a full log of
five entries, a call at now = 60 fires and drops the oldest entry, while
the suppression, bound and formatting conclusions hold at this input. -/
theorem alert_cooldown_witness :
    ((60 : ℚ) - 0 < ALERT_COOLDOWN →
      logAlert ⟨[("cpu", 0)], ["e1", "e2", "e3", "e4", "e5"]⟩ 60 "cpu" "12:00:00" "CPU CRITICAL"
        = ⟨[("cpu", 0)], ["e1", "e2", "e3", "e4", "e5"]⟩)
    ∧ (ALERT_COOLDOWN ≤ (60 : ℚ) - 0 →
        lookupFired (logAlert ⟨[("cpu", 0)], ["e1", "e2", "e3", "e4", "e5"]⟩
            60 "cpu" "12:00:00" "CPU CRITICAL").lastFired "cpu" = some 60
        ∧ (logAlert ⟨[("cpu", 0)], ["e1", "e2", "e3", "e4", "e5"]⟩
            60 "cpu" "12:00:00" "CPU CRITICAL").log
          = (fmtAlert "12:00:00" "CPU CRITICAL" :: ["e1", "e2", "e3", "e4", "e5"]).take 5)
    ∧ ((["e1", "e2", "e3", "e4", "e5"] : List String).length ≤ 5 →
        (logAlert ⟨[("cpu", 0)], ["e1", "e2", "e3", "e4", "e5"]⟩
            60 "cpu" "12:00:00" "CPU CRITICAL").log.length ≤ 5)
    ∧ ((["e1", "e2", "e3", "e4", "e5"] : List String).length = 5 →
        ALERT_COOLDOWN ≤ (60 : ℚ) - 0 →
        (logAlert ⟨[("cpu", 0)], ["e1", "e2", "e3", "e4", "e5"]⟩
            60 "cpu" "12:00:00" "CPU CRITICAL").log
          = fmtAlert "12:00:00" "CPU CRITICAL" :: (["e1", "e2", "e3", "e4", "e5"] : List String).take 4) :=
  alert_cooldown ⟨[("cpu", 0)], ["e1", "e2", "e3", "e4", "e5"]⟩ 60 0
    "cpu" "12:00:00" "CPU CRITICAL" rfl

/-- One row of the `stats` table of db.py (id and created_at, which no
operation reads, are elided). -/
structure StatsRow where
  timestamp : ℚ
  cpu : ℚ
  ram : ℚ
deriving DecidableEq

/-- One row of the `anomalies` table of db.py. -/
structure AnomRow where
  timestamp : ℚ
  metric : String
  value : ℚ
  baseline : ℚ
  stddev : ℚ
  severity : String
deriving DecidableEq

/-- The durable store: the two tables created by `init_db`. -/
structure DbState where
  stats : List StatsRow
  anomalies : List AnomRow
deriving DecidableEq

/-- A backend failure (psycopg2 raising on connect or execute). -/
inductive DbErr where
  | unavailable
deriving DecidableEq

/-- Sequential execution of the statements issued inside one `_get_conn`
block; the first failing statement aborts the rest. -/
def execStmts : List (DbState → Except DbErr DbState) → DbState → Except DbErr DbState
  | [], db => Except.ok db
  | s :: rest, db =>
    match s db with
    | Except.ok db2 => execStmts rest db2
    | Except.error e => Except.error e

/-- db.py `_get_conn`: one connection per call, `commit()` on success,
`rollback()` then re-raise on any exception, so the durable state is the
fully applied statement list or the untouched pre-transaction state. -/
def runTxn (stmts : List (DbState → Except DbErr DbState)) (db : DbState) :
    DbState × Except DbErr Unit :=
  match execStmts stmts db with
  | Except.ok db2 => (db2, Except.ok ())
  | Except.error e => (db, Except.error e)

/-- db.py `DELETE FROM stats WHERE timestamp < cutoff`. -/
def deleteOldStats (cutoff : ℚ) (db : DbState) : DbState :=
  ⟨db.stats.filter (fun r => !decide (r.timestamp < cutoff)), db.anomalies⟩

/-- db.py `DELETE FROM anomalies WHERE timestamp < cutoff`. -/
def deleteOldAnomalies (cutoff : ℚ) (db : DbState) : DbState :=
  ⟨db.stats, db.anomalies.filter (fun r => !decide (r.timestamp < cutoff))⟩

/-- The two delete statements of `cleanup_old_data`, each allowed to fail
at the backend (`failN` true means statement N raises). -/
def cleanupStmts (fail1 fail2 : Bool) (cutoff : ℚ) :
    List (DbState → Except DbErr DbState) :=
  [fun db => if fail1 then Except.error DbErr.unavailable
      else Except.ok (deleteOldStats cutoff db),
   fun db => if fail2 then Except.error DbErr.unavailable
      else Except.ok (deleteOldAnomalies cutoff db)]

/-- `cleanup_old_data`'s paired deletes run inside a single `_get_conn`
transaction. -/
def cleanupTxn (fail1 fail2 : Bool) (cutoff : ℚ) (db : DbState) :
    DbState × Except DbErr Unit :=
  runTxn (cleanupStmts fail1 fail2 cutoff) db

/-- C9: every persistence call is a single transaction whose durable
effect is all of its statements or none (commit or full rollback), and in
particular the cleanup's paired deletes from the stats and anomalies
tables apply atomically together: whatever fails, the store is either
untouched or has both deletes applied. -/
theorem txn_atomic (stmts : List (DbState → Except DbErr DbState))
    (db : DbState) (fail1 fail2 : Bool) (cutoff : ℚ) :
    ((∃ db2, execStmts stmts db = Except.ok db2
        ∧ runTxn stmts db = (db2, Except.ok ()))
      ∨ (∃ e, execStmts stmts db = Except.error e
        ∧ runTxn stmts db = (db, Except.error e)))
    ∧ ((cleanupTxn fail1 fail2 cutoff db).1 = db
      ∨ (cleanupTxn fail1 fail2 cutoff db).1
          = deleteOldAnomalies cutoff (deleteOldStats cutoff db)) := by
  constructor
  · unfold runTxn
    cases h : execStmts stmts db with
    | ok db2 => exact Or.inl ⟨db2, rfl, rfl⟩
    | error e => exact Or.inr ⟨e, rfl, rfl⟩
  · cases fail1 <;> cases fail2 <;>
      simp [cleanupTxn, runTxn, cleanupStmts, execStmts]

/-- The fixed conflict-ignoring insert of db.py `save`:
`INSERT ... ON CONFLICT (timestamp) DO NOTHING` against the UNIQUE
timestamp column. -/
def insertStats (db : DbState) (ts cpu ram : ℚ) : DbState :=
  if db.stats.any (fun r => r.timestamp == ts) then db
  else ⟨db.stats ++ [⟨ts, cpu, ram⟩], db.anomalies⟩

/-- db.py `save`: the insert inside try/except; a backend failure is
printed and swallowed, never re-raised. -/
def saveOp (avail : Bool) (db : DbState) (ts cpu ram : ℚ) :
    Except DbErr (DbState × List String) :=
  if avail then Except.ok (insertStats db ts cpu ram, [])
  else Except.ok (db, ["[ERROR] Database save failed"])

/-- db.py `init_db`: creates the schema and prints the ready message.
Unlike every other operation it has NO try/except, so a backend failure
propagates to the caller. -/
def initDb (avail : Bool) (db : DbState) : Except DbErr (DbState × List String) :=
  if avail then Except.ok (db, ["[DB] PostgreSQL connected and tables ready."])
  else Except.error DbErr.unavailable

/-- The `WHERE timestamp > cutoff` row set shared by the read queries. -/
def windowRows (db : DbState) (cutoff : ℚ) : List StatsRow :=
  db.stats.filter (fun r => decide (cutoff < r.timestamp))

/-- db.py `get_recent_stats`: window rows ordered most-recent-first with
the hard LIMIT 3600, `[]` and a printed error on backend failure. -/
def getRecentStats (avail : Bool) (db : DbState) (cutoff : ℚ) :
    Except DbErr (List StatsRow × List String) :=
  if avail then
    Except.ok (((windowRows db cutoff).insertionSort
        (fun a b => b.timestamp ≤ a.timestamp)).take 3600, [])
  else Except.ok ([], ["[ERROR] Database read failed"])

/-- The summary dict of db.py `get_stats_summary`.  `var_cpu` / `var_ram`
are the radicands of SQL `STDDEV` (sample variance): the stored stddev is
zero, or comparable, exactly when this value is. -/
structure Summary where
  samples : Nat
  avg_cpu : ℚ
  avg_ram : ℚ
  max_cpu : ℚ
  max_ram : ℚ
  var_cpu : ℚ
  var_ram : ℚ
deriving DecidableEq

/-- The zero-filled dict returned when the window is empty or the query
fails. -/
def zeroSummary : Summary := ⟨0, 0, 0, 0, 0, 0, 0⟩

/-- SQL `MAX` over a nonempty column. -/
def listMax (l : List ℚ) : ℚ := l.foldl max (l.headD 0)

/-- Radicand of SQL `STDDEV` (sample variance, divisor n - 1); SQL yields
NULL for a single row and Python coerces that NULL to 0 via `or 0`. -/
def sampleVar (l : List ℚ) : ℚ :=
  if l.length ≤ 1 then 0
  else ((l.map (fun x => (x - listMean l) ^ 2)).sum) / ((l.length : ℚ) - 1)

/-- The aggregate row of `get_stats_summary` and its `row[0] > 0` branch:
zero-filled result when the window has no rows. -/
def summaryOf (db : DbState) (cutoff : ℚ) : Summary :=
  if 0 < (windowRows db cutoff).length then
    ⟨(windowRows db cutoff).length,
     listMean ((windowRows db cutoff).map (fun r => r.cpu)),
     listMean ((windowRows db cutoff).map (fun r => r.ram)),
     listMax ((windowRows db cutoff).map (fun r => r.cpu)),
     listMax ((windowRows db cutoff).map (fun r => r.ram)),
     sampleVar ((windowRows db cutoff).map (fun r => r.cpu)),
     sampleVar ((windowRows db cutoff).map (fun r => r.ram))⟩
  else zeroSummary

/-- db.py `get_stats_summary`: the aggregate query inside try/except; the
zero-filled dict on an empty window and on backend failure. -/
def getStatsSummary (avail : Bool) (db : DbState) (cutoff : ℚ) :
    Except DbErr (Summary × List String) :=
  if avail then Except.ok (summaryOf db cutoff, [])
  else Except.ok (zeroSummary, ["[ERROR] Statistics query failed"])

/-- The baseline dict of db.py `get_baseline`, variances as in `Summary`
(the fallback std of 1.0 squares to 1). -/
structure Baseline where
  avg_cpu : ℚ
  var_cpu : ℚ
  avg_ram : ℚ
  var_ram : ℚ
  samples : Nat
  ready : Bool
deriving DecidableEq

/-- The not-ready fallback dict of `get_baseline`. -/
def defaultBaseline : Baseline := ⟨0, 1, 0, 1, 0, false⟩

/-- Python `float(row or 1)` on the stddev columns of `get_baseline`:
a falsy stddev (NULL, or exactly 0.0 as with ten constant-valued rows)
is coerced to 1.0.  Embedded on variances: the stddev is zero exactly
when its variance is, and the coerced 1.0 squares to 1. -/
def stdFallbackVar (v : ℚ) : ℚ := if v = 0 then 1 else v

/-- db.py `get_baseline`: ready with aggregates once the window holds at
least 10 rows (stddevs passing through the `or 1` coercion), the fallback
dict otherwise and on backend failure. -/
def getBaseline (avail : Bool) (db : DbState) (cutoff : ℚ) :
    Except DbErr (Baseline × List String) :=
  if avail then
    if 10 ≤ (windowRows db cutoff).length then
      Except.ok (⟨listMean ((windowRows db cutoff).map (fun r => r.cpu)),
        stdFallbackVar (sampleVar ((windowRows db cutoff).map (fun r => r.cpu))),
        listMean ((windowRows db cutoff).map (fun r => r.ram)),
        stdFallbackVar (sampleVar ((windowRows db cutoff).map (fun r => r.ram))),
        (windowRows db cutoff).length, true⟩, [])
    else Except.ok (defaultBaseline, [])
  else Except.ok (defaultBaseline, ["[ERROR] Baseline query failed"])

/-- db.py `log_anomaly`: append-only audit insert inside try/except. -/
def logAnomalyOp (avail : Bool) (db : DbState) (ts : ℚ) (metric : String)
    (value baseline stddev : ℚ) (severity : String) :
    Except DbErr (DbState × List String) :=
  if avail then
    Except.ok (⟨db.stats,
      db.anomalies ++ [⟨ts, metric, value, baseline, stddev, severity⟩]⟩, [])
  else Except.ok (db, ["[ERROR] Anomaly log failed"])

/-- db.py `cleanup_old_data`: the paired deletes in one transaction,
wrapped in try/except that prints and swallows any failure. -/
def cleanupOp (avail : Bool) (db : DbState) (cutoff : ℚ) :
    Except DbErr (DbState × List String) :=
  match cleanupTxn (!avail) (!avail) cutoff db with
  | (db2, Except.ok _) => Except.ok (db2, [])
  | (db2, Except.error _) => Except.ok (db2, ["[ERROR] Cleanup failed"])

/-- Counterexample to C2: `init_db` has no exception handler, so a backend
failure during startup propagates out of the operation instead of being
logged and swallowed. -/
theorem init_db_propagates_counterexample :
    initDb false ⟨[], []⟩ = Except.error DbErr.unavailable := rfl

/-- C2 amended: every persistence operation except `init()` is tolerant of
backend unavailability, logging and returning normally so that no raw
backend exception reaches the sampling loop; `init_db` alone has no
handler and propagates the failure to its caller (module import, before
the loop starts). -/
theorem persistence_containment (avail : Bool) (db : DbState)
    (ts cpu ram cutoff value baseline stddev : ℚ) (metric severity : String) :
    (∃ out, saveOp avail db ts cpu ram = Except.ok out)
    ∧ (∃ out, getRecentStats avail db cutoff = Except.ok out)
    ∧ (∃ out, getStatsSummary avail db cutoff = Except.ok out)
    ∧ (∃ out, getBaseline avail db cutoff = Except.ok out)
    ∧ (∃ out, logAnomalyOp avail db ts metric value baseline stddev severity
        = Except.ok out)
    ∧ (∃ out, cleanupOp avail db cutoff = Except.ok out)
    ∧ initDb false db = Except.error DbErr.unavailable := by
  refine ⟨?_, ?_, ?_, ?_, ?_, ?_, rfl⟩
  · cases avail <;> exact ⟨_, rfl⟩
  · cases avail <;> exact ⟨_, rfl⟩
  · cases avail <;> exact ⟨_, rfl⟩
  · cases avail
    · exact ⟨_, rfl⟩
    · unfold getBaseline
      rw [if_pos rfl]
      by_cases h : 10 ≤ (windowRows db cutoff).length
      · rw [if_pos h]
        exact ⟨_, rfl⟩
      · rw [if_neg h]
        exact ⟨_, rfl⟩
  · cases avail <;> exact ⟨_, rfl⟩
  · cases avail <;>
      · unfold cleanupOp
        split <;> exact ⟨_, rfl⟩

/-- Timestamp multiplicity in the stats table. -/
def countTs (db : DbState) (ts : ℚ) : Nat :=
  (db.stats.filter (fun r => r.timestamp == ts)).length

theorem insertStats_mem (db : DbState) (ts cpu ram : ℚ) :
    (insertStats db ts cpu ram).stats.any (fun r => r.timestamp == ts) = true := by
  unfold insertStats
  split
  · assumption
  · simp

theorem insertStats_of_mem (db : DbState) (ts cpu ram : ℚ)
    (h : db.stats.any (fun r => r.timestamp == ts) = true) :
    insertStats db ts cpu ram = db := by
  unfold insertStats
  rw [if_pos h]

/-- C7: saving twice with an identical timestamp stores exactly one row:
the second, duplicate-timestamp insert is a silent no-op and the second
save returns normally with no duplicate-key error surfaced. -/
theorem save_idempotent (db : DbState) (ts cpu ram : ℚ)
    (hfresh : countTs db ts = 0) :
    insertStats (insertStats db ts cpu ram) ts cpu ram = insertStats db ts cpu ram
    ∧ countTs (insertStats (insertStats db ts cpu ram) ts cpu ram) ts = 1
    ∧ saveOp true (insertStats db ts cpu ram) ts cpu ram
        = Except.ok (insertStats db ts cpu ram, []) := by
  have hdup : insertStats (insertStats db ts cpu ram) ts cpu ram
      = insertStats db ts cpu ram :=
    insertStats_of_mem _ _ _ _ (insertStats_mem db ts cpu ram)
  have hfilter : db.stats.filter (fun r => r.timestamp == ts) = [] :=
    List.length_eq_zero.mp hfresh
  have hany : db.stats.any (fun r => r.timestamp == ts) = false := by
    rw [List.any_eq_false]
    exact fun r hr => List.filter_eq_nil_iff.mp hfilter r hr
  refine ⟨hdup, ?_, ?_⟩
  · rw [hdup]
    have happend : (insertStats db ts cpu ram).stats
        = db.stats ++ [⟨ts, cpu, ram⟩] := by
      unfold insertStats
      rw [if_neg (by simp [hany])]
    unfold countTs
    rw [happend, List.filter_append, hfilter]
    simp
  · unfold saveOp
    rw [if_pos rfl, hdup]

/-- Witness for C7: two saves of (cpu 50, ram 60) at the forced timestamp
1 into an empty store leave exactly one row. -/
theorem save_idempotent_witness :
    insertStats (insertStats ⟨[], []⟩ 1 50 60) 1 50 60 = insertStats ⟨[], []⟩ 1 50 60
    ∧ countTs (insertStats (insertStats ⟨[], []⟩ 1 50 60) 1 50 60) 1 = 1
    ∧ saveOp true (insertStats ⟨[], []⟩ 1 50 60) 1 50 60
        = Except.ok (insertStats ⟨[], []⟩ 1 50 60, []) :=
  save_idempotent ⟨[], []⟩ 1 50 60 rfl

/-- C8: `summary(minutes)` over a store with no rows in the window returns
the result with every field zero, and it returns normally (never null
fields, never an exception) whether the window is empty or the backend is
down. -/
theorem summary_empty_window (db : DbState) (cutoff : ℚ)
    (hempty : windowRows db cutoff = []) :
    getStatsSummary true db cutoff = Except.ok (zeroSummary, [])
    ∧ getStatsSummary false db cutoff
        = Except.ok (zeroSummary, ["[ERROR] Statistics query failed"])
    ∧ zeroSummary = ⟨0, 0, 0, 0, 0, 0, 0⟩ := by
  refine ⟨?_, rfl, rfl⟩
  unfold getStatsSummary summaryOf
  rw [if_pos rfl, hempty]
  rfl

/-- Witness for C8: a store whose single row (timestamp 0) lies outside
the window starting at cutoff 10 yields the all-zero summary. -/
theorem summary_empty_window_witness :
    getStatsSummary true ⟨[⟨0, 50, 60⟩], []⟩ 10 = Except.ok (zeroSummary, [])
    ∧ getStatsSummary false ⟨[⟨0, 50, 60⟩], []⟩ 10
        = Except.ok (zeroSummary, ["[ERROR] Statistics query failed"])
    ∧ zeroSummary = ⟨0, 0, 0, 0, 0, 0, 0⟩ :=
  summary_empty_window ⟨[⟨0, 50, 60⟩], []⟩ 10 (by decide)

end Guardian
